import Mathlib

/-!
# Switch component of the loopy board server (`components/gpio/switch.c`)

A shallow embedding of the three procedures of `switch.c`

* `GpioHandlerSwitches` (the interrupt handler),
* `read_switch`,
* `init_switch`,

over an explicit hardware state.  Everything `switch.c` calls but does not
define (the Xilinx GPIO driver, `xil_printf`, `GpioIntrSetup` of `gpio.c`, the
user callback `callbackSwitches` and the identifiers of `xparameters.h`) is a
field of the platform record `Env`; the procedures are written against an
arbitrary platform.  Every call made by a procedure is recorded, in order, in
a call log that the platform cannot touch.
-/

namespace Switch

/-! ## Data model -/

/-- A reference to an `XGpio` driver instance.  `switches` is the address of the
module's `static XGpio switches`; `other n` is any other instance. -/
inductive XGpioPtr where
  | switches
  | other (addr : Nat)
  deriving DecidableEq, Repr

/-- A handler function pointer (`Xil_ExceptionHandler`).  `GpioHandlerSwitches`
is the handler defined in `switch.c`. -/
inductive Xil_ExceptionHandler where
  | GpioHandlerSwitches
  | other (addr : Nat)
  deriving DecidableEq, Repr

/-- One GPIO device instance with its per-channel registers (spec section 3,
GpioDevice and Channel).  Registers are 32-bit patterns held as naturals; the
driver never does arithmetic on them. -/
structure GpioDevice where
  isReady : Bool
  deviceId : Nat
  direction : Nat → Nat
  data : Nat → Nat
  pending : Nat → Bool

/-- The state outside `switch.c`: the GPIO instances, the table of present
peripherals, the interrupt controller bindings (line to handler and callback
context), the diagnostic console, and the LED state an application callback may
drive (`set_LED` is forward declared in `switch.c`). -/
structure World where
  gpio : XGpioPtr → GpioDevice
  present : Nat → Bool
  intc : Nat → Option (Xil_ExceptionHandler × XGpioPtr)
  console : List String
  led : Nat
  ledStatus : Int

/-- The platform: what `switch.c` includes or links against but does not define. -/
structure Env where
  XPAR_DIP_SWITCHES_8BITS_DEVICE_ID : Nat
  XPAR_MICROBLAZE_0_INTC_DIP_SWITCHES_8BITS_IP2INTC_IRPT_INTR : Nat
  xil_printf : String → World → World
  XGpio_Initialize : XGpioPtr → Nat → World → World × Int
  XGpio_SetDataDirection : XGpioPtr → Nat → Nat → World → World
  XGpio_DiscreteRead : XGpioPtr → Nat → World → World × Nat
  XGpio_InterruptClear : XGpioPtr → Nat → World → World
  GpioIntrSetup : XGpioPtr → Nat → Nat → Nat → Xil_ExceptionHandler → World → World × Int
  callbackSwitches : World → World

/-- Modelled from the spec: the macro `GPIO_CHANNEL1` comes from `gpio.h`, which is
not among the sources; the spec names the channel it denotes "channel 1". -/
def GPIO_CHANNEL1 : Nat := 1

/-- A call leaving `switch.c`, with its actual arguments. -/
inductive Call where
  | xil_printf (s : String)
  | XGpio_Initialize (inst : XGpioPtr) (deviceId : Nat)
  | XGpio_SetDataDirection (inst : XGpioPtr) (channel : Nat) (mask : Nat)
  | XGpio_DiscreteRead (inst : XGpioPtr) (channel : Nat)
  | XGpio_InterruptClear (inst : XGpioPtr) (mask : Nat)
  | GpioIntrSetup (inst : XGpioPtr) (deviceId : Nat) (intrId : Nat) (mask : Nat)
      (handler : Xil_ExceptionHandler)
  | callbackSwitches
  deriving DecidableEq, Repr

/-- Execution state: the hardware and the log of completed calls, oldest first. -/
structure St where
  hw : World
  calls : List Call

/-- Procedures of `switch.c` are state transformers returning a value. -/
abbrev Exec (ρ : Type) : Type := StateM St ρ

/-- Run one outside call to completion: apply its effect to the hardware and
append it to the log. -/
def invoke {ρ : Type} (c : Call) (f : World → World × ρ) : Exec ρ := fun st =>
  ((f st.hw).2, { hw := (f st.hw).1, calls := st.calls ++ [c] })

/-! ## The calls `switch.c` makes -/

/-- The call `xil_printf(s)`. -/
def xil_printf (E : Env) (s : String) : Exec Unit :=
  invoke (Call.xil_printf s) (fun w => (E.xil_printf s w, ()))

/-- The call `XGpio_Initialize(inst, deviceId)`; its value is the status. -/
def XGpio_Initialize (E : Env) (inst : XGpioPtr) (deviceId : Nat) : Exec Int :=
  invoke (Call.XGpio_Initialize inst deviceId) (E.XGpio_Initialize inst deviceId)

/-- The call `XGpio_SetDataDirection(inst, channel, mask)`. -/
def XGpio_SetDataDirection (E : Env) (inst : XGpioPtr) (channel mask : Nat) : Exec Unit :=
  invoke (Call.XGpio_SetDataDirection inst channel mask)
    (fun w => (E.XGpio_SetDataDirection inst channel mask w, ()))

/-- The call `XGpio_DiscreteRead(inst, channel)`; its value is the register read. -/
def XGpio_DiscreteRead (E : Env) (inst : XGpioPtr) (channel : Nat) : Exec Nat :=
  invoke (Call.XGpio_DiscreteRead inst channel) (E.XGpio_DiscreteRead inst channel)

/-- The call `XGpio_InterruptClear(inst, mask)`. -/
def XGpio_InterruptClear (E : Env) (inst : XGpioPtr) (mask : Nat) : Exec Unit :=
  invoke (Call.XGpio_InterruptClear inst mask)
    (fun w => (E.XGpio_InterruptClear inst mask w, ()))

/-- The call `GpioIntrSetup(inst, deviceId, intrId, mask, handler)`; its value is the
status. -/
def GpioIntrSetup (E : Env) (inst : XGpioPtr) (deviceId intrId mask : Nat)
    (handler : Xil_ExceptionHandler) : Exec Int :=
  invoke (Call.GpioIntrSetup inst deviceId intrId mask handler)
    (E.GpioIntrSetup inst deviceId intrId mask handler)

/-- The call `callbackSwitches()` of the user-defined callback. -/
def callbackSwitches (E : Env) : Exec Unit :=
  invoke Call.callbackSwitches (fun w => (E.callbackSwitches w, ()))

/-! ## The procedures of `switch.c` -/

/-- The handler `void GpioHandlerSwitches(void *CallbackRef)`. -/
def GpioHandlerSwitches (E : Env) (CallbackRef : XGpioPtr) : Exec Unit := do
  let GpioPtr := CallbackRef
  -- execute user-defined callback
  callbackSwitches E
  -- Clear the Interrupt
  XGpio_InterruptClear E GpioPtr GPIO_CHANNEL1

/-- The procedure `u32 read_switch()`. -/
def read_switch (E : Env) : Exec Nat :=
  XGpio_DiscreteRead E XGpioPtr.switches GPIO_CHANNEL1

/-- The procedure `int init_switch()`. -/
def init_switch (E : Env) : Exec Int := do
  xil_printf E "switches\n"
  let mut status ← XGpio_Initialize E XGpioPtr.switches E.XPAR_DIP_SWITCHES_8BITS_DEVICE_ID
  XGpio_SetDataDirection E XGpioPtr.switches GPIO_CHANNEL1 0xFFFFFFFF
  status ← GpioIntrSetup E XGpioPtr.switches E.XPAR_DIP_SWITCHES_8BITS_DEVICE_ID
    E.XPAR_MICROBLAZE_0_INTC_DIP_SWITCHES_8BITS_IP2INTC_IRPT_INTR GPIO_CHANNEL1
    Xil_ExceptionHandler.GpioHandlerSwitches
  return status

/-- State after running a procedure. -/
def after {ρ : Type} (m : Exec ρ) (st : St) : St := (m st).2

/-- Value returned by a procedure. -/
def result {ρ : Type} (m : Exec ρ) (st : St) : ρ := (m st).1

/-- The calls a procedure made during a run started in `st`. -/
def callsOf {ρ : Type} (m : Exec ρ) (st : St) : List Call :=
  (after m st).calls.drop st.calls.length

/-- A call that clears an interrupt flag, whatever its arguments. -/
def Call.isClear : Call → Bool
  | Call.XGpio_InterruptClear _ _ => true
  | _ => false

/-- The platform `E` with the status returned by `XGpio_Initialize` replaced by `s`;
the effect of the call on the hardware is kept. -/
def withInitStatus (E : Env) (s : Int) : Env :=
  { E with XGpio_Initialize := fun inst deviceId w => ((E.XGpio_Initialize inst deviceId w).1, s) }

/-- The first three statements of `init_switch`: the diagnostic line, device
initialization and direction configuration, up to but excluding the interrupt
registration. -/
def init_switch_until_direction (E : Env) : Exec Int := do
  xil_printf E "switches\n"
  let status ← XGpio_Initialize E XGpioPtr.switches E.XPAR_DIP_SWITCHES_8BITS_DEVICE_ID
  XGpio_SetDataDirection E XGpioPtr.switches GPIO_CHANNEL1 0xFFFFFFFF
  return status

/-! ## The hardware abstraction layer as the spec describes it -/

namespace Hal

/-- Modelled from the spec: the status values are defined by the Xilinx headers, which
are not among the sources; the spec fixes only "non-negative on success, negative on
failure". Success. -/
def XST_SUCCESS : Int := 0

/-- Modelled from the spec: status of `InitError::DeviceNotFound` (section 7), a
negative status code; the numeric value is not given by the sources. -/
def DeviceNotFound : Int := -1

/-- Modelled from the spec: status of `InitError::ControllerSetupFailed` (section 7), a
negative status code; the numeric value is not given by the sources. -/
def ControllerSetupFailed : Int := -2

/-- Replace the device instance behind `p`. -/
def setDevice (w : World) (p : XGpioPtr) (d : GpioDevice) : World :=
  { w with gpio := fun q => if q = p then d else w.gpio q }

/-- Modelled from the spec: `xil_printf` is the Xilinx console printer, not among the
sources; section 6 says `init_switch` "emits a diagnostic line". The line is appended to
the console. -/
def xil_printf (s : String) (w : World) : World :=
  { w with console := w.console ++ [s] }

/-- Modelled from the spec: `XGpio_Initialize` belongs to the Xilinx GPIO driver, not
among the sources. Section 4.1 `initialize(device_id)`: binds the device instance for the
given identifier and zero-initializes its internal state; fails with `DeviceNotFound` when
the identifier does not correspond to a present peripheral. -/
def XGpio_Initialize (p : XGpioPtr) (deviceId : Nat) (w : World) : World × Int :=
  if w.present deviceId then
    (setDevice w p { w.gpio p with isReady := true, deviceId := deviceId, direction := fun _ => 0 },
      XST_SUCCESS)
  else (w, DeviceNotFound)

/-- Modelled from the spec: `XGpio_SetDataDirection` belongs to the Xilinx GPIO driver,
not among the sources. Section 4.1 `set_direction(channel, mask)`: sets the direction
mask of the channel (bit 1 means input); fire-and-forget. -/
def XGpio_SetDataDirection (p : XGpioPtr) (channel mask : Nat) (w : World) : World :=
  setDevice w p { w.gpio p with
    direction := fun c => if c = channel then mask else (w.gpio p).direction c }

/-- Modelled from the spec: `XGpio_DiscreteRead` belongs to the Xilinx GPIO driver, not
among the sources. Section 4.1 `read(channel)`: returns the current discrete bit-pattern
of the channel; always succeeds, no buffering. -/
def XGpio_DiscreteRead (p : XGpioPtr) (channel : Nat) (w : World) : World × Nat :=
  (w, (w.gpio p).data channel)

/-- Modelled from the spec: `XGpio_InterruptClear` belongs to the Xilinx GPIO driver,
not among the sources. Section 4.2 step 3: clears the interrupt-pending flag for the
given channel on the referenced device. The second argument, which `switch.c` gives as
`GPIO_CHANNEL1`, is read as that channel. -/
def XGpio_InterruptClear (p : XGpioPtr) (channel : Nat) (w : World) : World :=
  setDevice w p { w.gpio p with
    pending := fun c => if c = channel then false else (w.gpio p).pending c }

/-- Modelled from the spec: `GpioIntrSetup` is defined in `gpio.c`, which is not among
the sources. Section 4.1 `register_interrupt(device, device_id, interrupt_line, channel,
handler)`: enables the line at the controller and binds `handler` to fire with `device`
as its callback context; fails with `ControllerSetupFailed` when the line is already
bound. -/
def GpioIntrSetup (p : XGpioPtr) (_deviceId intrId _channel : Nat)
    (handler : Xil_ExceptionHandler) (w : World) : World × Int :=
  match w.intc intrId with
  | some _ => (w, ControllerSetupFailed)
  | none =>
    ({ w with intc := fun l => if l = intrId then some (handler, p) else w.intc l }, XST_SUCCESS)

/-- Modelled from the spec: the hardware side of one simulated interrupt occurrence
(section 8), which no source file contains: the peripheral behind `p` latches the value
`v` on channel 1 and raises the interrupt-pending flag of that channel. -/
def raise (p : XGpioPtr) (v : Nat) (w : World) : World :=
  setDevice w p { w.gpio p with
    data := fun c => if c = GPIO_CHANNEL1 then v else (w.gpio p).data c
    pending := fun c => if c = GPIO_CHANNEL1 then true else (w.gpio p).pending c }

end Hal

/-- The platform of the spec: the hardware abstraction layer of sections 4.1 and 4.2
with the given device identifier, interrupt line and application callback. -/
def specEnv (deviceId intrId : Nat) (cb : World → World) : Env where
  XPAR_DIP_SWITCHES_8BITS_DEVICE_ID := deviceId
  XPAR_MICROBLAZE_0_INTC_DIP_SWITCHES_8BITS_IP2INTC_IRPT_INTR := intrId
  xil_printf := Hal.xil_printf
  XGpio_Initialize := Hal.XGpio_Initialize
  XGpio_SetDataDirection := Hal.XGpio_SetDataDirection
  XGpio_DiscreteRead := Hal.XGpio_DiscreteRead
  XGpio_InterruptClear := Hal.XGpio_InterruptClear
  GpioIntrSetup := Hal.GpioIntrSetup
  callbackSwitches := cb

/-- Modelled from the spec: the interrupt controller is hardware, so no source file
contains the delivery of an interrupt. One simulated interrupt occurrence (section 8) on
the device behind `p`: the hardware latches `v` and raises the flag, then the controller
runs `GpioHandlerSwitches` with `p` as callback context. -/
def interruptOccurrence (E : Env) (p : XGpioPtr) (v : Nat) : Exec Unit := do
  modify (fun st => { st with hw := Hal.raise p v st.hw })
  GpioHandlerSwitches E p

/-- Modelled from the spec: the "sequence of N simulated interrupt occurrences" of
section 8. The first `n` occurrences of the sequence; occurrence `i` delivers `v i`. -/
def serveN (E : Env) (p : XGpioPtr) (v : Nat → Nat) : Nat → Exec Unit
  | 0 => pure ()
  | n + 1 => do
    serveN E p v n
    interruptOccurrence E p (v n)

/-! ## Concrete platforms and states -/

/-- A device instance before initialization. -/
def idleDevice : GpioDevice where
  isReady := false
  deviceId := 0
  direction := fun _ => 0
  data := fun _ => 0
  pending := fun _ => false

/-- A board whose only peripheral has device identifier 7; nothing is bound yet. -/
def board : World where
  gpio := fun _ => idleDevice
  present := fun id => id == 7
  intc := fun _ => none
  console := []
  led := 0
  ledStatus := 0

/-- The same board without any peripheral: every device identifier is unknown. -/
def boardNoDevice : World := { board with present := fun _ => false }

/-- A callback that mirrors the switches to the LEDs. -/
def ledCallback (w : World) : World :=
  { w with led := (w.gpio XGpioPtr.switches).data GPIO_CHANNEL1, ledStatus := 0 }

/-- The spec platform for device 7 on interrupt line 3 with the LED callback. -/
def boardEnv : Env := specEnv 7 3 ledCallback

/-- Start of a run on `w` with an empty call log. -/
def start (w : World) : St := { hw := w, calls := [] }

/-! ## Basic facts about the procedures -/

theorem handler_after (E : Env) (p : XGpioPtr) (st : St) :
    after (GpioHandlerSwitches E p) st =
      { hw := E.XGpio_InterruptClear p GPIO_CHANNEL1 (E.callbackSwitches st.hw),
        calls := st.calls ++ [Call.callbackSwitches, Call.XGpio_InterruptClear p GPIO_CHANNEL1] } := by
  simp [after, GpioHandlerSwitches, callbackSwitches, XGpio_InterruptClear, invoke, bind,
    StateT.bind]

theorem init_until_direction_after (E : Env) (st : St) :
    after (init_switch_until_direction E) st =
      { hw := E.XGpio_SetDataDirection XGpioPtr.switches GPIO_CHANNEL1 0xFFFFFFFF
          (E.XGpio_Initialize XGpioPtr.switches E.XPAR_DIP_SWITCHES_8BITS_DEVICE_ID
            (E.xil_printf "switches\n" st.hw)).1,
        calls := st.calls ++
          [Call.xil_printf "switches\n",
           Call.XGpio_Initialize XGpioPtr.switches E.XPAR_DIP_SWITCHES_8BITS_DEVICE_ID,
           Call.XGpio_SetDataDirection XGpioPtr.switches GPIO_CHANNEL1 0xFFFFFFFF] } := by
  simp [after, init_switch_until_direction, xil_printf, XGpio_Initialize, XGpio_SetDataDirection,
    invoke, bind, StateT.bind, pure, StateT.pure]

theorem init_eq_setup_after_direction (E : Env) (st : St) :
    init_switch E st =
      GpioIntrSetup E XGpioPtr.switches E.XPAR_DIP_SWITCHES_8BITS_DEVICE_ID
        E.XPAR_MICROBLAZE_0_INTC_DIP_SWITCHES_8BITS_IP2INTC_IRPT_INTR GPIO_CHANNEL1
        Xil_ExceptionHandler.GpioHandlerSwitches (after (init_switch_until_direction E) st) := by
  simp [after, init_switch, init_switch_until_direction, xil_printf, XGpio_Initialize,
    XGpio_SetDataDirection, GpioIntrSetup, invoke, bind, StateT.bind, pure, StateT.pure]

theorem init_after (E : Env) (st : St) :
    after (init_switch E) st =
      { hw := (E.GpioIntrSetup XGpioPtr.switches E.XPAR_DIP_SWITCHES_8BITS_DEVICE_ID
          E.XPAR_MICROBLAZE_0_INTC_DIP_SWITCHES_8BITS_IP2INTC_IRPT_INTR GPIO_CHANNEL1
          Xil_ExceptionHandler.GpioHandlerSwitches
          (after (init_switch_until_direction E) st).hw).1,
        calls := st.calls ++
          [Call.xil_printf "switches\n",
           Call.XGpio_Initialize XGpioPtr.switches E.XPAR_DIP_SWITCHES_8BITS_DEVICE_ID,
           Call.XGpio_SetDataDirection XGpioPtr.switches GPIO_CHANNEL1 0xFFFFFFFF,
           Call.GpioIntrSetup XGpioPtr.switches E.XPAR_DIP_SWITCHES_8BITS_DEVICE_ID
             E.XPAR_MICROBLAZE_0_INTC_DIP_SWITCHES_8BITS_IP2INTC_IRPT_INTR GPIO_CHANNEL1
             Xil_ExceptionHandler.GpioHandlerSwitches] } := by
  simp [after, init_switch, init_switch_until_direction, xil_printf, XGpio_Initialize,
    XGpio_SetDataDirection, GpioIntrSetup, invoke, bind, StateT.bind, pure, StateT.pure]

theorem init_result (E : Env) (st : St) :
    result (init_switch E) st =
      (E.GpioIntrSetup XGpioPtr.switches E.XPAR_DIP_SWITCHES_8BITS_DEVICE_ID
        E.XPAR_MICROBLAZE_0_INTC_DIP_SWITCHES_8BITS_IP2INTC_IRPT_INTR GPIO_CHANNEL1
        Xil_ExceptionHandler.GpioHandlerSwitches
        (after (init_switch_until_direction E) st).hw).2 := by
  simp [after, result, init_switch, init_switch_until_direction, xil_printf, XGpio_Initialize,
    XGpio_SetDataDirection, GpioIntrSetup, invoke, bind, StateT.bind, pure, StateT.pure]

theorem init_result_withInitStatus (E : Env) (st : St) (s : Int) :
    result (init_switch (withInitStatus E s)) st = result (init_switch E) st := by
  simp [init_result, init_until_direction_after, withInitStatus]

theorem callsOf_of_append {ρ : Type} (m : Exec ρ) (st : St) (l : List Call)
    (h : (after m st).calls = st.calls ++ l) : callsOf m st = l := by
  simp [callsOf, h]

theorem handler_callsOf (E : Env) (p : XGpioPtr) (st : St) :
    callsOf (GpioHandlerSwitches E p) st =
      [Call.callbackSwitches, Call.XGpio_InterruptClear p GPIO_CHANNEL1] :=
  callsOf_of_append _ _ _ (by rw [handler_after])

theorem occurrence_after (E : Env) (p : XGpioPtr) (v : Nat) (st : St) :
    after (interruptOccurrence E p v) st =
      { hw := E.XGpio_InterruptClear p GPIO_CHANNEL1 (E.callbackSwitches (Hal.raise p v st.hw)),
        calls := st.calls ++ [Call.callbackSwitches, Call.XGpio_InterruptClear p GPIO_CHANNEL1] } := by
  simp [after, interruptOccurrence, GpioHandlerSwitches, callbackSwitches, XGpio_InterruptClear,
    invoke, bind, StateT.bind, modify, modifyGet, MonadStateOf.modifyGet, StateT.modifyGet, pure]

theorem serveN_succ_after (E : Env) (p : XGpioPtr) (v : Nat → Nat) (n : Nat) (st : St) :
    after (serveN E p v (n + 1)) st =
      after (interruptOccurrence E p (v n)) (after (serveN E p v n) st) := rfl

theorem serveN_calls (E : Env) (p : XGpioPtr) (v : Nat → Nat) (st : St) :
    ∀ n, (after (serveN E p v n) st).calls = st.calls ++
      (List.replicate n [Call.callbackSwitches, Call.XGpio_InterruptClear p GPIO_CHANNEL1]).flatten
  | 0 => by simp [after, serveN, pure, StateT.pure]
  | n + 1 => by
    rw [serveN_succ_after, occurrence_after]
    simp only [serveN_calls E p v st n, List.append_assoc]
    congr 1
    induction n with
    | zero => simp
    | succ k ih => simp only [List.replicate_succ, List.flatten_cons, List.append_assoc, ih]

/-! ## The interrupt handler -/

/-- C1: for every platform (hence every callback behaviour), every callback context and
every starting state, one run of `GpioHandlerSwitches` makes exactly the calls
`callbackSwitches` and then `XGpio_InterruptClear` on the context with channel 1, in that
order: the callback is invoked exactly once, exactly one call clears an interrupt flag,
nothing is cleared before the callback has returned, and the final hardware state is the
clear applied to the state the callback left. -/
theorem handler_callback_once_then_clear_once (E : Env) (CallbackRef : XGpioPtr) (st : St) :
    callsOf (GpioHandlerSwitches E CallbackRef) st =
        [Call.callbackSwitches, Call.XGpio_InterruptClear CallbackRef GPIO_CHANNEL1]
      ∧ (callsOf (GpioHandlerSwitches E CallbackRef) st).count Call.callbackSwitches = 1
      ∧ (callsOf (GpioHandlerSwitches E CallbackRef) st).countP Call.isClear = 1
      ∧ ((callsOf (GpioHandlerSwitches E CallbackRef) st).takeWhile
          (fun c => c != Call.callbackSwitches)).countP Call.isClear = 0
      ∧ (after (GpioHandlerSwitches E CallbackRef) st).hw =
          E.XGpio_InterruptClear CallbackRef GPIO_CHANNEL1 (E.callbackSwitches st.hw) := by
  rw [handler_callsOf, handler_after]
  refine ⟨rfl, ?_, ?_, ?_, rfl⟩
  · simp [List.count_cons]
  · simp [List.countP_cons, Call.isClear]
  · simp [List.takeWhile]

/-- C9: for every platform whose `XGpio_InterruptClear` is the spec's clear, every
callback and every device reference passed as callback context, `GpioHandlerSwitches`
issues its clear for channel 1 on exactly that reference, unconditionally; afterwards the
pending flag of channel 1 of the referenced device is clear; every other device (the
module's static instance included, when the context is another device) is as the callback
left it; and on the referenced device itself readiness, device binding, direction, data
and the pending flags of the other channels are as the callback left them. -/
theorem handler_clears_only_context_device (E : Env) (CallbackRef : XGpioPtr) (st : St)
    (hclr : E.XGpio_InterruptClear = Hal.XGpio_InterruptClear) :
    callsOf (GpioHandlerSwitches E CallbackRef) st =
        [Call.callbackSwitches, Call.XGpio_InterruptClear CallbackRef GPIO_CHANNEL1]
      ∧ ((after (GpioHandlerSwitches E CallbackRef) st).hw.gpio CallbackRef).pending
          GPIO_CHANNEL1 = false
      ∧ (∀ q, q ≠ CallbackRef →
          (after (GpioHandlerSwitches E CallbackRef) st).hw.gpio q =
            (E.callbackSwitches st.hw).gpio q)
      ∧ (CallbackRef ≠ XGpioPtr.switches →
          (after (GpioHandlerSwitches E CallbackRef) st).hw.gpio XGpioPtr.switches =
            (E.callbackSwitches st.hw).gpio XGpioPtr.switches)
      ∧ ((after (GpioHandlerSwitches E CallbackRef) st).hw.gpio CallbackRef).isReady =
          ((E.callbackSwitches st.hw).gpio CallbackRef).isReady
      ∧ ((after (GpioHandlerSwitches E CallbackRef) st).hw.gpio CallbackRef).deviceId =
          ((E.callbackSwitches st.hw).gpio CallbackRef).deviceId
      ∧ ((after (GpioHandlerSwitches E CallbackRef) st).hw.gpio CallbackRef).direction =
          ((E.callbackSwitches st.hw).gpio CallbackRef).direction
      ∧ ((after (GpioHandlerSwitches E CallbackRef) st).hw.gpio CallbackRef).data =
          ((E.callbackSwitches st.hw).gpio CallbackRef).data
      ∧ (∀ c, c ≠ GPIO_CHANNEL1 →
          ((after (GpioHandlerSwitches E CallbackRef) st).hw.gpio CallbackRef).pending c =
            ((E.callbackSwitches st.hw).gpio CallbackRef).pending c)
      ∧ (after (GpioHandlerSwitches E CallbackRef) st).hw.intc = (E.callbackSwitches st.hw).intc
      ∧ (after (GpioHandlerSwitches E CallbackRef) st).hw.present =
          (E.callbackSwitches st.hw).present := by
  rw [handler_callsOf, handler_after, hclr]
  refine ⟨rfl, ?_, ?_, ?_, ?_, ?_, ?_, ?_, ?_, rfl, rfl⟩
  · simp [Hal.XGpio_InterruptClear, Hal.setDevice]
  · intro q hq
    simp [Hal.XGpio_InterruptClear, Hal.setDevice, hq]
  · intro hq
    simp [Hal.XGpio_InterruptClear, Hal.setDevice, Ne.symm hq]
  · simp [Hal.XGpio_InterruptClear, Hal.setDevice]
  · simp [Hal.XGpio_InterruptClear, Hal.setDevice]
  · simp [Hal.XGpio_InterruptClear, Hal.setDevice]
  · simp [Hal.XGpio_InterruptClear, Hal.setDevice]
  · intro c hc
    simp [Hal.XGpio_InterruptClear, Hal.setDevice, hc]

/-- Witness of C9: the handler run with another device than the static instance as
context, after an interrupt was raised on both. -/
theorem handler_clears_only_context_device_witness :
    ((after (GpioHandlerSwitches boardEnv (XGpioPtr.other 1))
        (start (Hal.raise XGpioPtr.switches 5 (Hal.raise (XGpioPtr.other 1) 9 board)))).hw.gpio
          (XGpioPtr.other 1)).pending GPIO_CHANNEL1 = false
      ∧ ((after (GpioHandlerSwitches boardEnv (XGpioPtr.other 1))
        (start (Hal.raise XGpioPtr.switches 5 (Hal.raise (XGpioPtr.other 1) 9 board)))).hw.gpio
          XGpioPtr.switches).pending GPIO_CHANNEL1 = true :=
  have h := handler_clears_only_context_device boardEnv (XGpioPtr.other 1)
    (start (Hal.raise XGpioPtr.switches 5 (Hal.raise (XGpioPtr.other 1) 9 board))) rfl
  ⟨h.2.1, by rw [h.2.2.2.1 (by decide)]; decide⟩

/-- C2: for every number `N`, every starting state, every callback and every delivered
value sequence, on a platform whose `XGpio_InterruptClear` clears the flag of the channel
it is given: serving `N` successive interrupt occurrences with `GpioHandlerSwitches`
makes exactly `N` callback invocations, each followed by its clear (the calls are `N`
repetitions of callback then clear), and after each occurrence's handler has returned the
interrupt-pending flag of channel 1 of the device is clear. -/
theorem serveN_callback_count_and_flag (E : Env) (p : XGpioPtr) (v : Nat → Nat) (N : Nat)
    (st : St)
    (hclr : ∀ q w, ((E.XGpio_InterruptClear q GPIO_CHANNEL1 w).gpio q).pending GPIO_CHANNEL1
      = false) :
    (callsOf (serveN E p v N) st).count Call.callbackSwitches = N
      ∧ callsOf (serveN E p v N) st =
          (List.replicate N
            [Call.callbackSwitches, Call.XGpio_InterruptClear p GPIO_CHANNEL1]).flatten
      ∧ ∀ k, k < N →
          ((after (serveN E p v (k + 1)) st).hw.gpio p).pending GPIO_CHANNEL1 = false := by
  have hc := callsOf_of_append (serveN E p v N) st _ (serveN_calls E p v st N)
  refine ⟨?_, hc, ?_⟩
  · rw [hc]
    clear hc
    induction N with
    | zero => simp
    | succ k ih =>
      rw [List.replicate_succ, List.flatten_cons, List.count_append, ih]
      simp [List.count_cons]
      omega
  · intro k _
    rw [serveN_succ_after, occurrence_after]
    exact hclr p _

/-- Witness of C2: three occurrences on the static instance of the spec platform. -/
theorem serveN_callback_count_and_flag_witness :
    (callsOf (serveN boardEnv XGpioPtr.switches (fun _ => 5) 3) (start board)).count
        Call.callbackSwitches = 3
      ∧ ∀ k, k < 3 →
          ((after (serveN boardEnv XGpioPtr.switches (fun _ => 5) (k + 1)) (start board)).hw.gpio
            XGpioPtr.switches).pending GPIO_CHANNEL1 = false :=
  have h := serveN_callback_count_and_flag boardEnv XGpioPtr.switches (fun _ => 5) 3
    (start board) (fun q w => by simp [boardEnv, specEnv, Hal.XGpio_InterruptClear, Hal.setDevice])
  ⟨h.1, h.2.2⟩

/-! ## Reading the switches -/

/-- C6: on every platform whose `XGpio_DiscreteRead` is the spec's unbuffered `read`, and
for every hardware state: `read_switch` returns exactly the data register of channel 1 of
the static switch instance, its only call is that read, and the hardware state is left
unchanged, so a second read returns the same value. When the register holds 0 the read
returns 0; right after the hardware delivers 5 with an interrupt the read returns 5, and
so does the read after the whole interrupt occurrence (the callback having been invoked
exactly once) when neither the callback nor the clear changes that register. -/
theorem read_switch_current_pattern (E : Env) (st : St)
    (hread : E.XGpio_DiscreteRead = Hal.XGpio_DiscreteRead)
    (hcb : ∀ w, ((E.callbackSwitches w).gpio XGpioPtr.switches).data GPIO_CHANNEL1 =
      (w.gpio XGpioPtr.switches).data GPIO_CHANNEL1)
    (hclr : ∀ w, ((E.XGpio_InterruptClear XGpioPtr.switches GPIO_CHANNEL1 w).gpio
      XGpioPtr.switches).data GPIO_CHANNEL1 = (w.gpio XGpioPtr.switches).data GPIO_CHANNEL1) :
    result (read_switch E) st = (st.hw.gpio XGpioPtr.switches).data GPIO_CHANNEL1
      ∧ callsOf (read_switch E) st = [Call.XGpio_DiscreteRead XGpioPtr.switches GPIO_CHANNEL1]
      ∧ (after (read_switch E) st).hw = st.hw
      ∧ result (read_switch E) (after (read_switch E) st) = result (read_switch E) st
      ∧ ((st.hw.gpio XGpioPtr.switches).data GPIO_CHANNEL1 = 0x00 →
          result (read_switch E) st = 0x00)
      ∧ result (read_switch E) { st with hw := Hal.raise XGpioPtr.switches 0x05 st.hw } = 0x05
      ∧ result (read_switch E) (after (interruptOccurrence E XGpioPtr.switches 0x05) st) = 0x05
      ∧ (callsOf (interruptOccurrence E XGpioPtr.switches 0x05) st).count
          Call.callbackSwitches = 1 := by
  have hres : ∀ s : St, result (read_switch E) s =
      (s.hw.gpio XGpioPtr.switches).data GPIO_CHANNEL1 := by
    intro s
    simp [result, read_switch, XGpio_DiscreteRead, invoke, hread, Hal.XGpio_DiscreteRead]
  have haft : ∀ s : St, after (read_switch E) s =
      { hw := s.hw,
        calls := s.calls ++ [Call.XGpio_DiscreteRead XGpioPtr.switches GPIO_CHANNEL1] } := by
    intro s
    simp [after, read_switch, XGpio_DiscreteRead, invoke, hread, Hal.XGpio_DiscreteRead]
  refine ⟨hres st, callsOf_of_append _ _ _ (by rw [haft]), by rw [haft], ?_, ?_, ?_, ?_, ?_⟩
  · rw [hres, hres, haft]
  · intro h0
    rw [hres, h0]
  · rw [hres]
    simp [Hal.raise, Hal.setDevice]
  · rw [hres, occurrence_after]
    simp only [hclr, hcb]
    simp [Hal.raise, Hal.setDevice]
  · rw [callsOf_of_append _ _ _ (by rw [occurrence_after])]
    simp [List.count_cons]

/-- Witness of C6: the spec platform with the LED callback on the idle board. -/
theorem read_switch_current_pattern_witness :
    result (read_switch boardEnv) (start board) = 0x00
      ∧ result (read_switch boardEnv)
          (after (interruptOccurrence boardEnv XGpioPtr.switches 0x05) (start board)) = 0x05 :=
  have h := read_switch_current_pattern boardEnv (start board) rfl
    (fun w => by simp [boardEnv, specEnv, ledCallback])
    (fun w => by simp [boardEnv, specEnv, Hal.XGpio_InterruptClear, Hal.setDevice])
  ⟨h.2.2.2.2.1 rfl, h.2.2.2.2.2.2.1⟩

/-! ## Initialization -/

/-- C10: for every platform, hence for every pair of statuses returned by
`XGpio_Initialize` and `GpioIntrSetup`, the value `init_switch` returns is the status
returned by `GpioIntrSetup` alone; replacing the status of `XGpio_Initialize` by any other
value changes neither the returned value nor the final state; and the run always makes
the direction configuration and the interrupt registration calls. -/
theorem init_switch_returns_setup_status (E : Env) (st : St) (s : Int) :
    result (init_switch E) st =
        result (GpioIntrSetup E XGpioPtr.switches E.XPAR_DIP_SWITCHES_8BITS_DEVICE_ID
          E.XPAR_MICROBLAZE_0_INTC_DIP_SWITCHES_8BITS_IP2INTC_IRPT_INTR GPIO_CHANNEL1
          Xil_ExceptionHandler.GpioHandlerSwitches) (after (init_switch_until_direction E) st)
      ∧ result (init_switch (withInitStatus E s)) st = result (init_switch E) st
      ∧ (after (init_switch (withInitStatus E s)) st).hw = (after (init_switch E) st).hw
      ∧ (after (init_switch (withInitStatus E s)) st).calls = (after (init_switch E) st).calls
      ∧ Call.XGpio_SetDataDirection XGpioPtr.switches GPIO_CHANNEL1 0xFFFFFFFF
          ∈ callsOf (init_switch E) st
      ∧ Call.GpioIntrSetup XGpioPtr.switches E.XPAR_DIP_SWITCHES_8BITS_DEVICE_ID
          E.XPAR_MICROBLAZE_0_INTC_DIP_SWITCHES_8BITS_IP2INTC_IRPT_INTR GPIO_CHANNEL1
          Xil_ExceptionHandler.GpioHandlerSwitches ∈ callsOf (init_switch E) st := by
  have hc := callsOf_of_append (init_switch E) st _ (by rw [init_after])
  refine ⟨?_, ?_, ?_, ?_, ?_, ?_⟩
  · simp [result, init_eq_setup_after_direction]
  · simp [init_result, init_until_direction_after, withInitStatus]
  · simp [init_after, init_until_direction_after, withInitStatus]
  · simp [init_after, init_until_direction_after, withInitStatus]
  · rw [hc]; simp
  · rw [hc]; simp

/-- C7: for every platform and every run of `init_switch` in which the underlying
steps report success (non-negative status of `XGpio_Initialize` and of `GpioIntrSetup`),
the calls are, in this order: the diagnostic line "switches", the initialization of the
static instance for the DIP-switch device identifier, the direction configuration of
channel 1, and the interrupt registration of that same instance with
`GpioHandlerSwitches` as handler; the hardware state is the composition of the four
effects in that order; the returned status is non-negative; and when registration is the
spec's `register_interrupt`, the line ends bound to `GpioHandlerSwitches` with the static
instance as callback context. -/
theorem init_switch_effect_order (E : Env) (st : St)
    (hinit : 0 ≤ result (XGpio_Initialize E XGpioPtr.switches E.XPAR_DIP_SWITCHES_8BITS_DEVICE_ID)
      (after (xil_printf E "switches\n") st))
    (hsetup : 0 ≤ result (GpioIntrSetup E XGpioPtr.switches E.XPAR_DIP_SWITCHES_8BITS_DEVICE_ID
      E.XPAR_MICROBLAZE_0_INTC_DIP_SWITCHES_8BITS_IP2INTC_IRPT_INTR GPIO_CHANNEL1
      Xil_ExceptionHandler.GpioHandlerSwitches) (after (init_switch_until_direction E) st)) :
    callsOf (init_switch E) st =
        [Call.xil_printf "switches\n",
         Call.XGpio_Initialize XGpioPtr.switches E.XPAR_DIP_SWITCHES_8BITS_DEVICE_ID,
         Call.XGpio_SetDataDirection XGpioPtr.switches GPIO_CHANNEL1 0xFFFFFFFF,
         Call.GpioIntrSetup XGpioPtr.switches E.XPAR_DIP_SWITCHES_8BITS_DEVICE_ID
           E.XPAR_MICROBLAZE_0_INTC_DIP_SWITCHES_8BITS_IP2INTC_IRPT_INTR GPIO_CHANNEL1
           Xil_ExceptionHandler.GpioHandlerSwitches]
      ∧ (after (init_switch E) st).hw =
          (E.GpioIntrSetup XGpioPtr.switches E.XPAR_DIP_SWITCHES_8BITS_DEVICE_ID
            E.XPAR_MICROBLAZE_0_INTC_DIP_SWITCHES_8BITS_IP2INTC_IRPT_INTR GPIO_CHANNEL1
            Xil_ExceptionHandler.GpioHandlerSwitches
            (E.XGpio_SetDataDirection XGpioPtr.switches GPIO_CHANNEL1 0xFFFFFFFF
              (E.XGpio_Initialize XGpioPtr.switches E.XPAR_DIP_SWITCHES_8BITS_DEVICE_ID
                (E.xil_printf "switches\n" st.hw)).1)).1
      ∧ 0 ≤ result (init_switch E) st
      ∧ (E.GpioIntrSetup = Hal.GpioIntrSetup →
          (after (init_switch E) st).hw.intc
              E.XPAR_MICROBLAZE_0_INTC_DIP_SWITCHES_8BITS_IP2INTC_IRPT_INTR =
            some (Xil_ExceptionHandler.GpioHandlerSwitches, XGpioPtr.switches)) := by
  have _ := hinit
  refine ⟨callsOf_of_append _ _ _ (by rw [init_after]), ?_, ?_, ?_⟩
  · rw [init_after, init_until_direction_after]
  · rw [init_result]
    simpa [result, GpioIntrSetup, invoke] using hsetup
  · intro hal
    rw [init_after]
    simp only [result, GpioIntrSetup, invoke, hal] at hsetup ⊢
    unfold Hal.GpioIntrSetup at hsetup ⊢
    split at hsetup
    · simp [Hal.ControllerSetupFailed] at hsetup
    · rename_i hnone
      simp [hnone]

/-- Witness of C7: the board with device 7 present and line 3 free. -/
theorem init_switch_effect_order_witness :
    callsOf (init_switch boardEnv) (start board) =
        [Call.xil_printf "switches\n",
         Call.XGpio_Initialize XGpioPtr.switches 7,
         Call.XGpio_SetDataDirection XGpioPtr.switches GPIO_CHANNEL1 0xFFFFFFFF,
         Call.GpioIntrSetup XGpioPtr.switches 7 3 GPIO_CHANNEL1
           Xil_ExceptionHandler.GpioHandlerSwitches]
      ∧ 0 ≤ result (init_switch boardEnv) (start board)
      ∧ (after (init_switch boardEnv) (start board)).hw.intc 3 =
          some (Xil_ExceptionHandler.GpioHandlerSwitches, XGpioPtr.switches) :=
  have h := init_switch_effect_order boardEnv (start board) (by decide) (by decide)
  ⟨h.1, h.2.2.1, h.2.2.2 rfl⟩

/-- C8: on every platform whose `XGpio_Initialize` and `XGpio_SetDataDirection` are the
spec's `initialize` and `set_direction` and whose interrupt registration leaves direction
masks alone, and for every valid (present) device identifier: after the initialize and
set_direction steps of `init_switch` the device is ready and channel 1 of the static
instance has direction mask 0xFFFFFFFF, every one of its 32 bits being set (input);
`init_switch` continues from that state with the interrupt registration only, and the
direction mask is still 0xFFFFFFFF when `init_switch` returns. -/
theorem init_switch_direction_all_input (E : Env) (st : St)
    (hvalid : (E.xil_printf "switches\n" st.hw).present E.XPAR_DIP_SWITCHES_8BITS_DEVICE_ID
      = true)
    (hinit : E.XGpio_Initialize = Hal.XGpio_Initialize)
    (hdir : E.XGpio_SetDataDirection = Hal.XGpio_SetDataDirection)
    (hsetup : ∀ p d l c h w q,
      ((E.GpioIntrSetup p d l c h w).1.gpio q).direction = (w.gpio q).direction) :
    result (init_switch_until_direction E) st = Hal.XST_SUCCESS
      ∧ ((after (init_switch_until_direction E) st).hw.gpio XGpioPtr.switches).isReady = true
      ∧ ((after (init_switch_until_direction E) st).hw.gpio XGpioPtr.switches).direction
          GPIO_CHANNEL1 = 0xFFFFFFFF
      ∧ (∀ i, i < 32 →
          (((after (init_switch_until_direction E) st).hw.gpio XGpioPtr.switches).direction
            GPIO_CHANNEL1).testBit i = true)
      ∧ after (init_switch E) st =
          after (GpioIntrSetup E XGpioPtr.switches E.XPAR_DIP_SWITCHES_8BITS_DEVICE_ID
            E.XPAR_MICROBLAZE_0_INTC_DIP_SWITCHES_8BITS_IP2INTC_IRPT_INTR GPIO_CHANNEL1
            Xil_ExceptionHandler.GpioHandlerSwitches) (after (init_switch_until_direction E) st)
      ∧ ((after (init_switch E) st).hw.gpio XGpioPtr.switches).direction GPIO_CHANNEL1
          = 0xFFFFFFFF := by
  have hmid : ((after (init_switch_until_direction E) st).hw.gpio XGpioPtr.switches).direction
      GPIO_CHANNEL1 = 0xFFFFFFFF := by
    rw [init_until_direction_after, hdir]
    simp [Hal.XGpio_SetDataDirection, Hal.setDevice]
  refine ⟨?_, ?_, hmid, ?_, ?_, ?_⟩
  · simp [result, init_switch_until_direction, xil_printf, XGpio_Initialize,
      XGpio_SetDataDirection, invoke, bind, StateT.bind, pure, StateT.pure, hinit,
      Hal.XGpio_Initialize, hvalid]
  · rw [init_until_direction_after, hdir, hinit]
    simp [Hal.XGpio_SetDataDirection, Hal.XGpio_Initialize, Hal.setDevice, hvalid]
  · intro i hi
    rw [hmid]
    revert i
    decide
  · simp [after, init_eq_setup_after_direction]
  · rw [init_after, hsetup]
    exact hmid

/-- Witness of C8: the board with device 7 present, on the spec platform. -/
theorem init_switch_direction_all_input_witness :
    board.present 7 = true
      ∧ ((after (init_switch boardEnv) (start board)).hw.gpio XGpioPtr.switches).direction
          GPIO_CHANNEL1 = 0xFFFFFFFF
      ∧ ((after (init_switch boardEnv) (start board)).hw.gpio XGpioPtr.switches).isReady = true :=
  have h := init_switch_direction_all_input boardEnv (start board) (by decide) rfl rfl
    (fun p d l c h w q => by
      simp only [boardEnv, specEnv, Hal.GpioIntrSetup]
      split <;> rfl)
  ⟨by decide, h.2.2.2.2.2, by rw [h.2.2.2.2.1]; exact h.2.1⟩

/-! ## Initialization on a board without the device -/

/-- C3 at the failing input: on the board without any peripheral `XGpio_Initialize`
reports `DeviceNotFound`, a negative status, the interrupt registration succeeds, and
`init_switch` returns 0, a non-negative status, although a step failed; the same holds
whatever status value `XGpio_Initialize` uses to report its failure. -/
theorem init_switch_hides_initialize_failure :
    result (XGpio_Initialize boardEnv XGpioPtr.switches
        boardEnv.XPAR_DIP_SWITCHES_8BITS_DEVICE_ID)
        (after (xil_printf boardEnv "switches\n") (start boardNoDevice)) = Hal.DeviceNotFound
      ∧ Hal.DeviceNotFound < 0
      ∧ result (init_switch boardEnv) (start boardNoDevice) = 0
      ∧ ¬ result (init_switch boardEnv) (start boardNoDevice) < 0
      ∧ ∀ s : Int, result (init_switch (withInitStatus boardEnv s)) (start boardNoDevice) = 0 := by
  refine ⟨by decide, by decide, by decide, by decide, ?_⟩
  intro s
  rw [(init_result_withInitStatus boardEnv (start boardNoDevice) s)]
  decide

/-- C4 at the failing input: on the board without any peripheral `XGpio_Initialize`
reports `DeviceNotFound`, and `init_switch` nevertheless goes on to configure the
direction and to call `GpioIntrSetup`, which binds interrupt line 3 to
`GpioHandlerSwitches`: the run does not stop at the failed initialization. -/
theorem init_switch_registers_after_initialize_failure :
    result (XGpio_Initialize boardEnv XGpioPtr.switches
        boardEnv.XPAR_DIP_SWITCHES_8BITS_DEVICE_ID)
        (after (xil_printf boardEnv "switches\n") (start boardNoDevice)) = Hal.DeviceNotFound
      ∧ (boardNoDevice.intc 3 = none)
      ∧ callsOf (init_switch boardEnv) (start boardNoDevice) =
          [Call.xil_printf "switches\n",
           Call.XGpio_Initialize XGpioPtr.switches 7,
           Call.XGpio_SetDataDirection XGpioPtr.switches GPIO_CHANNEL1 0xFFFFFFFF,
           Call.GpioIntrSetup XGpioPtr.switches 7 3 GPIO_CHANNEL1
             Xil_ExceptionHandler.GpioHandlerSwitches]
      ∧ (after (init_switch boardEnv) (start boardNoDevice)).hw.intc 3 =
          some (Xil_ExceptionHandler.GpioHandlerSwitches, XGpioPtr.switches) := by
  refine ⟨by decide, by decide, ?_, by decide⟩
  exact callsOf_of_append _ _ _ (by rw [init_after]; rfl)

end Switch
